import Mathlib

/-!
Verification of the semantic-retrieval core of the `intentions` repository:
the sentence/paragraph chunkers, the cosine similarity scorer, the hybrid and
lexical rankers (`searchItems`, `searchInText` in `packages/client/src/client.ts`),
the highlight projector (`computeHighlightedSegments` in
`packages/react/src/hooks/useSearch.ts`), and the two query-controller variants
(`useSearch` and `useSelect`).

Strings are modelled as Lean `String` (lists of characters); JavaScript string
indices coincide with character indices for the ASCII inputs used throughout.
Numbers are modelled as real numbers (`Math.sqrt` forces the score field to be
`ℝ`); machine floating point is idealised as exact real arithmetic.
The asynchronous embedding collaborator is modelled as explicit input data:
`none` means no provider is configured, `some es` means the batch-embed call
returned the vector list `es`.  The two React query controllers are modelled
as explicit state machines: the synchronous prefix of their `search` function
is one step (`searchCall` / `selectCall`), and the continuation that runs when
the awaited promise settles is another (`searchSettle` / `selectSettle`).
-/

namespace Intentions

/-! ## Basic string helpers (JS semantics) -/

/-- Whitespace characters removed by JavaScript `String.prototype.trim`
(ASCII portion). -/
def jsWhite (c : Char) : Bool :=
  c = ' ' || c = '\t' || c = '\n' || c = '\r' || c = '\x0b' || c = '\x0c'

/-- JS `s.trim()`: drop leading and trailing whitespace. -/
def jsTrim (s : String) : String :=
  ⟨((s.data.dropWhile jsWhite).reverse.dropWhile jsWhite).reverse⟩

/-- JS `s.slice(i, j)` for `0 ≤ i ≤ j` (clamped at the ends). -/
def jsSlice (s : String) (i j : Nat) : String :=
  ⟨(s.data.drop i).take (j - i)⟩

/-- JS `s.toLowerCase()` (ASCII portion). -/
def jsLower (s : String) : String :=
  ⟨s.data.map Char.toLower⟩

/-- `a` is a prefix of `b` (as character lists). -/
def isPrefOf : List Char → List Char → Bool
  | [], _ => true
  | _ :: _, [] => false
  | a :: as, b :: bs => a = b && isPrefOf as bs

/-- `needle` occurs as a contiguous substring of the character list. -/
def hasSubL (needle : List Char) : List Char → Bool
  | [] => needle.isEmpty
  | c :: cs => isPrefOf needle (c :: cs) || hasSubL needle cs

/-- JS `hay.includes(needle)`. -/
def jsIncludes (hay needle : String) : Bool :=
  hasSubL needle.data hay.data

/-- JS `s.startsWith(pre)`. -/
def jsStarts (s pre : String) : Bool :=
  isPrefOf pre.data s.data

/-- Position of the first occurrence of `needle` at or after index `i`
(helper for `jsIndexOfFrom`). -/
def idxFromAux (needle : List Char) : List Char → Nat → Option Nat
  | [], i => if needle.isEmpty then some i else none
  | c :: cs, i => if isPrefOf needle (c :: cs) then some i else idxFromAux needle cs (i + 1)

/-- JS `hay.indexOf(needle, start)`; `none` plays the role of `-1`. -/
def jsIndexOfFrom (hay needle : String) (start : Nat) : Option Nat :=
  (idxFromAux needle.data (hay.data.drop start) 0).map (· + start)

/-! ## Data model (`packages/client/src/types.ts`) -/

/-- A position-tagged chunk produced by the chunkers. -/
structure Chunk where
  text : String
  startOffset : Nat
  endOffset : Nat
deriving DecidableEq, Repr

/-- `TextChunk`: a chunk together with its similarity score. -/
structure TextChunk where
  text : String
  startOffset : Nat
  endOffset : Nat
  score : ℝ

/-- `SearchItem`: a labeled item to be ranked. -/
structure Item where
  id : String := ""
  label : String
  description : Option String := none
  keywords : Option (List String) := none
deriving DecidableEq, Repr

/-- `RankedItem`: an item together with its score. -/
structure RankedItem where
  item : Item
  score : ℝ

/-- `HighlightedSegment`: a piece of the original text, highlighted or not. -/
structure HighlightedSegment where
  text : String
  isHighlight : Bool
  score : Option ℝ := none

/-! ## Chunkers (`client.ts`, `chunkBySentences` / `chunkByParagraphs`) -/

/-- Sentence terminator characters of the regex `[.!?]`. -/
def isTerm (c : Char) : Bool :=
  c = '.' || c = '!' || c = '?'

/-- Spans `(start, stop)` of the matches of the regex `[^.!?]*[.!?]+` against
the text, scanned left to right.  `pos` is the index of the next character,
`st` the start of the current candidate match, `inTerm` whether the scanner is
inside a run of terminators. -/
def sentSpans (pos st : Nat) (inTerm : Bool) : List Char → List (Nat × Nat)
  | [] => if inTerm then [(st, pos)] else []
  | c :: cs =>
    if isTerm c then sentSpans (pos + 1) st true cs
    else if inTerm then (st, pos) :: sentSpans (pos + 1) pos false cs
    else sentSpans (pos + 1) st false cs

/-- `chunkBySentences` from `client.ts`: each regex match becomes a trimmed
chunk with the match's offsets; non-empty trailing text without terminating
punctuation becomes one final chunk. -/
def chunkBySentences (text : String) : List Chunk :=
  let spans := sentSpans 0 0 false text.data
  let chunks := (spans.map fun sp =>
    Chunk.mk (jsTrim (jsSlice text sp.1 sp.2)) sp.1 sp.2).filter
    (fun c => c.text.length ≠ 0)
  let lastEnd := match chunks.getLast? with
    | some c => c.endOffset
    | none => 0
  if lastEnd < text.length then
    let remaining := jsTrim (jsSlice text lastEnd text.length)
    if remaining.length ≠ 0 then
      chunks ++ [Chunk.mk remaining lastEnd text.length]
    else chunks
  else chunks

/-- The pieces of JS `text.split(/\n\n+/)`: separators are maximal runs of two
or more newlines; `cur` holds the current piece reversed. -/
def splitParas (cur : List Char) : List Char → List String
  | [] => [String.mk cur.reverse]
  | c :: cs =>
    if c = '\n' ∧ cs.head? = some '\n' then
      String.mk cur.reverse :: splitParas [] (cs.dropWhile (· = '\n'))
    else splitParas (c :: cur) cs
termination_by l => l.length
decreasing_by
  · exact Nat.lt_succ_of_le (List.Sublist.length_le (List.dropWhile_sublist _))
  · exact Nat.lt_succ_of_le (Nat.le_refl _)

/-- `chunkByParagraphs` from `client.ts`: split on blank lines; each non-empty
trimmed paragraph is located with `indexOf` starting from the end of the
previous match.  (The `none` branch mirrors `indexOf` returning `-1`, which
cannot happen for pieces of the split.) -/
def chunkByParagraphs (text : String) : List Chunk :=
  let paras := splitParas [] text.data
  (paras.foldl (fun (acc : List Chunk × Nat) para =>
    let trimmed := jsTrim para
    if trimmed.length ≠ 0 then
      match jsIndexOfFrom text para acc.2 with
      | some st => (acc.1 ++ [Chunk.mk trimmed st (st + para.length)], st + para.length)
      | none => acc
    else acc) ([], 0)).1

/-! ## Tokenizer and similarity scorer (`client.ts`, `tokenize` / `cosineSimilarity`) -/

/-- Word characters of the regex class `\w` (after lowercasing). -/
def isWordChar (c : Char) : Bool :=
  ('a' ≤ c && c ≤ 'z') || ('0' ≤ c && c ≤ '9') || c = '_'

/-- Splits a lowercased character list into maximal runs of word characters;
`cur` holds the current run reversed. -/
def tokAux (cur : List Char) : List Char → List String
  | [] => if cur.isEmpty then [] else [String.mk cur.reverse]
  | c :: cs =>
    if isWordChar c then tokAux (c :: cur) cs
    else if cur.isEmpty then tokAux [] cs
    else String.mk cur.reverse :: tokAux [] cs

/-- `tokenize` from `client.ts`: lowercase, replace non-word characters by
whitespace, split on whitespace runs, drop empty tokens. -/
def tokenize (s : String) : List String :=
  tokAux [] (s.data.map Char.toLower)

/-- Insertion-ordered deduplication, as iterating a JS `Set` built from a
list: keeps the first occurrence of each element. -/
def dedupFirst : List String → List String
  | [] => []
  | x :: xs => x :: (dedupFirst xs).filter (· ≠ x)

/-- The accumulator of the `for` loop in `cosineSimilarity`:
`∑_{i < n} x[i] * y[i]` with `?? 0` for out-of-range reads.  The dot product
is `loopSum a.length a b`, the squared norms are `loopSum a.length a a` and
`loopSum a.length b b`. -/
noncomputable def loopSum (n : Nat) (x y : List ℝ) : ℝ :=
  ∑ i ∈ Finset.range n, x.getD i 0 * y.getD i 0

/-- `cosineSimilarity` from `client.ts`: `0` when either vector is empty or
the lengths differ or the denominator is zero; otherwise the dot product
divided by the product of the Euclidean norms.  The sums index over
`i < a.length` exactly as the source loop does. -/
noncomputable def cosineSimilarity (a b : List ℝ) : ℝ :=
  if a.length = 0 ∨ b.length = 0 ∨ a.length ≠ b.length then 0
  else if Real.sqrt (loopSum a.length a a) * Real.sqrt (loopSum a.length b b) = 0 then 0
  else loopSum a.length a b /
    (Real.sqrt (loopSum a.length a a) * Real.sqrt (loopSum a.length b b))

/-! ## Stable sorting (JS `Array.prototype.sort`, which is stable) -/

/-- Stable descending sort by a score projection, as JS
`arr.sort((a, b) => b.score - a.score)`. -/
noncomputable def sortDescBy {α : Type} (f : α → ℝ) (l : List α) : List α :=
  l.insertionSort (fun a b => f b ≤ f a)

/-- Stable ascending sort by a numeric key, as JS
`arr.sort((a, b) => a.k - b.k)`. -/
def sortAscBy {α : Type} (f : α → Nat) (l : List α) : List α :=
  l.insertionSort (fun a b => f a ≤ f b)

/-- `items.map((item, i) => ...)`: map with the element index. -/
def mapWithIndex {α β : Type} (f : Nat → α → β) : Nat → List α → List β
  | _, [] => []
  | i, x :: xs => f i x :: mapWithIndex f (i + 1) xs

/-! ## Item ranking (`client.ts`, `searchItems`) -/

/-- Item text for the embedding path:
`[label, description ?? "", ...keywords ?? []].filter(Boolean).join(" ")`. -/
def itemTextEmbed (item : Item) : String :=
  String.intercalate " "
    (([item.label, item.description.getD ""] ++ item.keywords.getD []).filter
      (fun s => s.length ≠ 0))

/-- Item text for the lexical fallback:
`[label, description ?? "", ...keywords ?? []].join(" ")` (no filter). -/
def itemTextLex (item : Item) : String :=
  String.intercalate " " ([item.label, item.description.getD ""] ++ item.keywords.getD [])

/-- The keyword boost of the embedding path of `searchItems`: label contains
query → 0.3, else some keyword contains query → 0.25, else some query token
occurs in the combined text → 0.15, else 0. -/
noncomputable def keywordBoost (query : String) (item : Item) : ℝ :=
  let queryLower := jsLower query
  let searchText := jsLower (itemTextEmbed item)
  if jsIncludes (jsLower item.label) queryLower then 3/10
  else if (item.keywords.getD []).any (fun k => jsIncludes (jsLower k) queryLower) then 1/4
  else if (tokenize query).any (fun qt => jsIncludes searchText qt) then 3/20
  else 0

/-- One item of the embedding path of `searchItems`: the embedding score is
`cosineSimilarity(queryEmbedding, embeddings[i + 1])` (or `0` when that
vector is missing) and the fused score is
`min(embeddingScore + keywordBoost, 1)`. -/
noncomputable def embedItemScore (embeddings : List (List ℝ)) (query : String)
    (i : Nat) (item : Item) : RankedItem :=
  let embeddingScore := match embeddings.get? (i + 1) with
    | some e => cosineSimilarity (embeddings.headD []) e
    | none => 0
  RankedItem.mk item (min (embeddingScore + keywordBoost query item) 1)

/-- The embedding path of `searchItems`: fused scores, sorted descending. -/
noncomputable def embedScoreItems (embeddings : List (List ℝ)) (query : String)
    (items : List Item) : List RankedItem :=
  sortDescBy RankedItem.score (mapWithIndex (embedItemScore embeddings query) 0 items)

/-- Per-query-token score of the lexical fallback: exact token membership → 1,
else substring of the combined text → 0.7, else some item token in a prefix
relation with the query token → 0.5, else 0. -/
noncomputable def lexTokenScore (searchText : String) (itemWords : List String)
    (q : String) : ℝ :=
  if itemWords.contains q then 1
  else if jsIncludes searchText q then 7/10
  else if itemWords.any (fun w => jsStarts w q || jsStarts q w) then 1/2
  else 0

/-- Sum of the per-token scores over the (deduplicated) query tokens for one
item, as the `for (const qWord of queryWords)` loop accumulates it. -/
noncomputable def lexMatchScore (queryWords : List String) (item : Item) : ℝ :=
  let searchText := jsLower (itemTextLex item)
  let itemWords := dedupFirst (tokenize searchText)
  queryWords.foldl (fun acc q => acc + lexTokenScore searchText itemWords q) 0

/-- The lexical fallback path of `searchItems`: empty query token set gives
every item score 0 (unsorted return); otherwise `min(matchScore / #tokens, 1)`
per item, sorted descending. -/
noncomputable def lexicalRank (query : String) (items : List Item) : List RankedItem :=
  let queryWords := dedupFirst (tokenize query)
  if queryWords.length = 0 then items.map (fun item => RankedItem.mk item 0)
  else
    sortDescBy RankedItem.score (items.map fun item =>
      RankedItem.mk item (min (lexMatchScore queryWords item / queryWords.length) 1))

/-- `searchItems` from `client.ts`.  `emb = none` models the absence of a
configured embedding collaborator; `emb = some embeddings` models the vector
list returned by the `embedMany` call on `[query, ...itemTexts]`.  A response
of the wrong shape throws inside the `try` block, and the `catch` falls
through to the lexical fallback. -/
noncomputable def searchItems (emb : Option (List (List ℝ))) (query : String)
    (items : List Item) : List RankedItem :=
  if items.length = 0 then []
  else match emb with
  | some embeddings =>
    if embeddings.length = items.length + 1 then
      if (embeddings.headD []).length = 0 then lexicalRank query items
      else embedScoreItems embeddings query items
    else lexicalRank query items
  | none => lexicalRank query items

/-! ## Text-chunk ranking (`client.ts`, `searchInText`) -/

inductive ChunkStrategy where
  | sentences
  | paragraphs
deriving DecidableEq, Repr

/-- `SearchInTextOptions` with the source defaults
`{chunkStrategy = "sentences", maxResults = 5, minScore = 0.3}`. -/
structure SearchInTextOptions where
  chunkStrategy : ChunkStrategy := .sentences
  maxResults : Nat := 5
  minScore : ℝ := 3/10

/-- The chunker selected by the strategy option. -/
def chunksFor (strategy : ChunkStrategy) (text : String) : List Chunk :=
  match strategy with
  | .paragraphs => chunkByParagraphs text
  | .sentences => chunkBySentences text

/-- One scored chunk of `searchInText`:
`cosineSimilarity(queryEmbedding, embeddings[i + 1])`, or `0` when that
vector is missing; no keyword boost on the chunk path. -/
noncomputable def scoreChunk (embeddings : List (List ℝ)) (i : Nat) (c : Chunk) : TextChunk :=
  let score := match embeddings.get? (i + 1) with
    | some e => cosineSimilarity (embeddings.headD []) e
    | none => 0
  TextChunk.mk c.text c.startOffset c.endOffset score

/-- `searchInText` from `client.ts`.  Returns `.error` with the thrown
message; note that the empty-chunk early return precedes the provider check. -/
noncomputable def searchInText (emb : Option (List (List ℝ))) (query text : String)
    (opts : SearchInTextOptions) : Except String (List TextChunk) :=
  let rawChunks := chunksFor opts.chunkStrategy text
  if rawChunks.length = 0 then .ok []
  else match emb with
  | none => .error "Embedding provider not initialized for text search"
  | some embeddings =>
    if embeddings.length = rawChunks.length + 1 then
      if (embeddings.headD []).length = 0 then .error "Empty query embedding"
      else
        let scored := mapWithIndex (scoreChunk embeddings) 0 rawChunks
        .ok ((sortDescBy TextChunk.score
          (scored.filter (fun c => opts.minScore ≤ c.score))).take opts.maxResults)
    else .error "Invalid embeddings response"

/-! ## Highlight projector (`useSearch.ts`, `computeHighlightedSegments`) -/

/-- `computeHighlightedSegments` from `useSearch.ts`: sort chunks by start
offset, emit a non-highlighted segment for each gap, a highlighted segment
carrying the chunk text for each chunk, and a trailing non-highlighted
segment for any remainder. -/
def computeHighlightedSegments (text : String) (results : List TextChunk) :
    List HighlightedSegment :=
  if results.length = 0 ∨ text.length = 0 then [HighlightedSegment.mk text false none]
  else
    let sorted := sortAscBy TextChunk.startOffset results
    let step := sorted.foldl (fun (acc : List HighlightedSegment × Nat) chunk =>
      let segs := if acc.2 < chunk.startOffset then
          acc.1 ++ [HighlightedSegment.mk (jsSlice text acc.2 chunk.startOffset) false none]
        else acc.1
      (segs ++ [HighlightedSegment.mk chunk.text true (some chunk.score)],
        chunk.endOffset)) ([], 0)
    if step.2 < text.length then
      step.1 ++ [HighlightedSegment.mk (jsSlice text step.2 text.length) false none]
    else step.1

/-! ## Query controllers (`useSearch.ts` and `useSelect` in `useComplete.ts`)

Each controller instance owns React state (`results`, `error`, `isSearching`)
and refs (`lastQueryRef`, `lastTextRef`, `abortControllerRef`).  Abort
controllers are identified by the order of their creation: `nextId` is the id
the next `new AbortController()` receives and `active` is the id held in
`abortControllerRef.current` (`none` = `null`).  A call of the `search`
callback runs synchronously up to the `await` (`searchCall` / `selectCall`);
the rest of its body runs when the awaited client call settles
(`searchSettle` / `selectSettle`), with the outcome of that promise as input. -/

/-- Session state of the `useSearch` controller. -/
structure SearchCState where
  results : List TextChunk
  error : Option String
  isSearching : Bool
  lastQuery : String
  lastText : String
  active : Option Nat
  nextId : Nat

/-- Initial `useSearch` state: empty results, no error, refs at `""`/`null`. -/
def initSearchC : SearchCState :=
  ⟨[], none, false, "", "", none, 0⟩

/-- What the synchronous prefix of a `search` call does: either it returns a
value immediately (no client call is made) or it issues a request with a
fresh abort-controller id. -/
inductive CallOutcome (β : Type) where
  | immediate (value : β)
  | issued (id : Nat)
deriving DecidableEq, Repr

/-- How the awaited client call settles: resolution with a value, rejection
with an `AbortError`, or rejection with any other error message. -/
inductive SettleOutcome (β : Type) where
  | ok (value : β)
  | abortErr
  | err (msg : String)

/-- The synchronous prefix of `search` in `useSearch.ts` (lines 124-159):
guards for a missing client, a short query and an unchanged `(q, text)` pair;
otherwise abort the pending request, install a fresh abort controller, record
`(q, text)`, set the searching flag and clear the error. -/
def searchCall (hasClient : Bool) (minQueryLength : Nat) (s : SearchCState)
    (q text : String) : SearchCState × CallOutcome (List TextChunk) :=
  if !hasClient then (s, .immediate [])
  else if q.length < minQueryLength then ({ s with results := [] }, .immediate [])
  else if q = s.lastQuery ∧ text = s.lastText then (s, .immediate s.results)
  else
    ({ s with
        active := some s.nextId
        nextId := s.nextId + 1
        lastQuery := q
        lastText := text
        isSearching := true
        error := none }, .issued s.nextId)

/-- The continuation of `search` in `useSearch.ts` (lines 153-176) when the
awaited `client.searchInText` settles for the request with abort-controller
id `id`: commit the results only if that controller is still the current one;
an `AbortError` is swallowed; any other rejection records the error; the
`finally` block clears the searching flag only for the current controller.
Returns the new state and the value the `search` promise resolves with. -/
def searchSettle (s : SearchCState) (id : Nat) (o : SettleOutcome (List TextChunk)) :
    SearchCState × List TextChunk :=
  match o with
  | .ok chunks =>
    if s.active = some id then
      ({ s with results := chunks, isSearching := false }, chunks)
    else (s, [])
  | .abortErr =>
    (if s.active = some id then { s with isSearching := false } else s, [])
  | .err msg =>
    (if s.active = some id then { s with error := some msg, isSearching := false }
     else { s with error := some msg }, [])

/-- Session state of the `useSelect` controller (no source text ref). -/
structure SelectCState where
  results : List RankedItem
  error : Option String
  isSearching : Bool
  lastQuery : String
  active : Option Nat
  nextId : Nat

/-- Initial `useSelect` state. -/
def initSelectC : SelectCState :=
  ⟨[], none, false, "", none, 0⟩

/-- The synchronous prefix of `search` in `useSelect` (lines 155-175 of
`useComplete.ts`): the duplicate-query guard returns the empty list, not the
cached results. -/
def selectCall (hasClient : Bool) (minQueryLength : Nat) (s : SelectCState)
    (q : String) : SelectCState × CallOutcome (List RankedItem) :=
  if !hasClient then (s, .immediate [])
  else if q.length < minQueryLength then ({ s with results := [] }, .immediate [])
  else if q = s.lastQuery then (s, .immediate [])
  else
    ({ s with
        active := some s.nextId
        nextId := s.nextId + 1
        lastQuery := q
        isSearching := true
        error := none }, .issued s.nextId)

/-- The continuation of `search` in `useSelect` (lines 177-202) when the
awaited `client.searchItems` settles: after the staleness check the ranked
list is filtered by `minScore` (when positive) and capped at `maxResults`
(when positive) before being committed. -/
noncomputable def selectSettle (minScore : ℝ) (maxResults : Nat) (s : SelectCState)
    (id : Nat) (o : SettleOutcome (List RankedItem)) : SelectCState × List RankedItem :=
  match o with
  | .ok ranked =>
    if s.active = some id then
      let r1 := if 0 < minScore then ranked.filter (fun r => minScore ≤ r.score) else ranked
      let r2 := if 0 < maxResults then r1.take maxResults else r1
      ({ s with results := r2, isSearching := false }, r2)
    else (s, [])
  | .abortErr =>
    (if s.active = some id then { s with isSearching := false } else s, [])
  | .err msg =>
    (if s.active = some id then { s with error := some msg, isSearching := false }
     else { s with error := some msg }, [])

/-- `displayOptions` in `useSelect` (lines 261-266 of `useComplete.ts`): with
an open dropdown and an empty (falsy) query, show all items with score 1;
otherwise show the committed results. -/
def displayOptions (query : String) (isOpen : Bool) (items : List Item)
    (results : List RankedItem) : List RankedItem :=
  if query.length = 0 ∧ isOpen then items.map (fun item => RankedItem.mk item 1)
  else results

/-! ## Specification-side definitions for the lexical fallback

The following definitions transcribe the specification text for the lexical
fallback ranker (spec §4.4): per query token, exact token-set membership
scores 1.0, else a substring of the combined text scores 0.7, else a token in
a prefix relation with some item token scores 0.5; the per-item score is the
sum over the unique query tokens divided by their number and clamped to
`[0, 1]`.  They are compared with the source-derived `lexicalRank`. -/

/-- Spec wording of the per-query-token score for one item. -/
noncomputable def specLexTokenScore (item : Item) (t : String) : ℝ :=
  if t ∈ dedupFirst (tokenize (jsLower (itemTextLex item))) then 1
  else if jsIncludes (jsLower (itemTextLex item)) t = true then 7/10
  else if ∃ w ∈ dedupFirst (tokenize (jsLower (itemTextLex item))),
      jsStarts w t = true ∨ jsStarts t w = true then 1/2
  else 0

/-- Spec wording of the per-item score: sum over unique query tokens, divided
by their number, clamped to `[0, 1]`. -/
noncomputable def specLexScore (query : String) (item : Item) : ℝ :=
  max 0 (min ((((dedupFirst (tokenize query)).map (specLexTokenScore item)).sum) /
    ((dedupFirst (tokenize query)).length : ℝ)) 1)

/-- Spec wording of the lexical fallback ranking: score every item, sort
descending (stable). -/
noncomputable def specLexicalRank (query : String) (items : List Item) : List RankedItem :=
  sortDescBy RankedItem.score
    (items.map fun item => RankedItem.mk item (specLexScore query item))

/-! ## Concrete demonstration data used by the scenario theorems -/

def catItem : Item := ⟨"1", "Cat", none, none⟩

def dogItem : Item := ⟨"2", "Dog", none, none⟩

def zzItem : Item := ⟨"3", "zz", none, none⟩

/-! ## General lemmas about the similarity scorer -/

theorem loopSum_self_nonneg (n : Nat) (x : List ℝ) : 0 ≤ loopSum n x x :=
  Finset.sum_nonneg fun _ _ => mul_self_nonneg _

theorem loopSum_le_sqrt_mul_sqrt (n : Nat) (x y : List ℝ) :
    loopSum n x y ≤ Real.sqrt (loopSum n x x) * Real.sqrt (loopSum n y y) := by
  have h := Real.sum_mul_le_sqrt_mul_sqrt (Finset.range n)
    (fun i => x.getD i 0) (fun i => y.getD i 0)
  simpa [loopSum, pow_two] using h

theorem neg_loopSum_le_sqrt_mul_sqrt (n : Nat) (x y : List ℝ) :
    -loopSum n x y ≤ Real.sqrt (loopSum n x x) * Real.sqrt (loopSum n y y) := by
  have h := Real.sum_mul_le_sqrt_mul_sqrt (Finset.range n)
    (fun i => -(x.getD i 0)) (fun i => y.getD i 0)
  simpa [loopSum, pow_two, neg_sq, neg_mul, Finset.sum_neg_distrib] using h

/-- The value of `cosineSimilarity` always lies in `[-1, 1]` (it is `0` in
the degenerate cases and a true cosine otherwise). -/
theorem cosineSimilarity_bounds (a b : List ℝ) :
    -1 ≤ cosineSimilarity a b ∧ cosineSimilarity a b ≤ 1 := by
  unfold cosineSimilarity
  split
  · norm_num
  split
  · norm_num
  next h1 h2 =>
    have hden : 0 < Real.sqrt (loopSum a.length a a) * Real.sqrt (loopSum a.length b b) :=
      lt_of_le_of_ne (mul_nonneg (Real.sqrt_nonneg _) (Real.sqrt_nonneg _)) (Ne.symm h2)
    constructor
    · rw [le_div_iff₀ hden]
      have h := neg_loopSum_le_sqrt_mul_sqrt a.length a b
      linarith
    · rw [div_le_one hden]
      exact loopSum_le_sqrt_mul_sqrt a.length a b

/-! ## General lemmas about the sorting and scoring helpers -/

instance sortRelTotal {α : Type} (f : α → ℝ) : IsTotal α (fun a b => f b ≤ f a) :=
  ⟨fun a b => le_total (f b) (f a)⟩

instance sortRelTrans {α : Type} (f : α → ℝ) : IsTrans α (fun a b => f b ≤ f a) :=
  ⟨fun _ _ _ hab hbc => le_trans hbc hab⟩

theorem sortDescBy_sorted {α : Type} (f : α → ℝ) (l : List α) :
    (sortDescBy f l).Sorted (fun a b => f b ≤ f a) :=
  List.sorted_insertionSort _ l

theorem mem_sortDescBy {α : Type} (f : α → ℝ) (l : List α) (x : α) :
    x ∈ sortDescBy f l ↔ x ∈ l :=
  (List.perm_insertionSort _ l).mem_iff

theorem sortDescBy_of_sorted {α : Type} {f : α → ℝ} {l : List α}
    (h : l.Sorted (fun a b => f b ≤ f a)) : sortDescBy f l = l :=
  h.insertionSort_eq

theorem pairwise_of_const {α : Type} {R : α → α → Prop} (h : ∀ a b, R a b) :
    ∀ l : List α, l.Pairwise R
  | [] => List.Pairwise.nil
  | x :: xs => List.Pairwise.cons (fun y _ => h x y) (pairwise_of_const h xs)

theorem mem_mapWithIndex {α β : Type} (f : Nat → α → β) (b : β) :
    ∀ (k : Nat) (l : List α), b ∈ mapWithIndex f k l → ∃ i a, a ∈ l ∧ b = f i a := by
  intro k l
  induction l generalizing k with
  | nil => intro h; cases h
  | cons x xs ih =>
    intro h
    rcases List.mem_cons.mp h with h | h
    · exact ⟨k, x, List.mem_cons_self x xs, h⟩
    · obtain ⟨i, a, ha, hb⟩ := ih (k + 1) h
      exact ⟨i, a, List.mem_cons_of_mem x ha, hb⟩

theorem keywordBoost_nonneg (query : String) (item : Item) :
    0 ≤ keywordBoost query item := by
  unfold keywordBoost
  dsimp only []
  split_ifs <;> norm_num

theorem lexTokenScore_nonneg (searchText : String) (itemWords : List String)
    (q : String) : 0 ≤ lexTokenScore searchText itemWords q := by
  unfold lexTokenScore
  split_ifs <;> norm_num

theorem foldl_add_init_le {α : Type} (g : α → ℝ) (hg : ∀ q, 0 ≤ g q) :
    ∀ (l : List α) (acc : ℝ), acc ≤ l.foldl (fun a q => a + g q) acc
  | [], _ => le_refl _
  | q :: l, acc =>
    le_trans (by linarith [hg q]) (foldl_add_init_le g hg l (acc + g q))

theorem lexMatchScore_nonneg (queryWords : List String) (item : Item) :
    0 ≤ lexMatchScore queryWords item :=
  foldl_add_init_le _ (fun q => lexTokenScore_nonneg _ _ q) queryWords 0

theorem embedItemScore_bounds (embeddings : List (List ℝ)) (query : String)
    (i : Nat) (item : Item) :
    -1 ≤ (embedItemScore embeddings query i item).score ∧
    (embedItemScore embeddings query i item).score ≤ 1 := by
  unfold embedItemScore
  dsimp only []
  refine ⟨le_min ?_ (by norm_num), min_le_right _ _⟩
  have hb := keywordBoost_nonneg query item
  have hx : (-1 : ℝ) ≤ (match embeddings.get? (i + 1) with
      | some e => cosineSimilarity (embeddings.headD []) e
      | none => 0) := by
    rcases embeddings.get? (i + 1) with _ | e <;> dsimp only []
    · norm_num
    · exact (cosineSimilarity_bounds _ _).1
  linarith

theorem scoreChunk_bounds (embeddings : List (List ℝ)) (i : Nat) (c : Chunk) :
    -1 ≤ (scoreChunk embeddings i c).score ∧ (scoreChunk embeddings i c).score ≤ 1 := by
  unfold scoreChunk
  dsimp only []
  rcases embeddings.get? (i + 1) with _ | e <;> dsimp only []
  · norm_num
  · exact ⟨(cosineSimilarity_bounds _ _).1, (cosineSimilarity_bounds _ _).2⟩

theorem embedScoreItems_sorted (embeddings : List (List ℝ)) (query : String)
    (items : List Item) :
    (embedScoreItems embeddings query items).Sorted
      (fun a b : RankedItem => b.score ≤ a.score) :=
  sortDescBy_sorted _ _

theorem embedScoreItems_bounds (embeddings : List (List ℝ)) (query : String)
    (items : List Item) :
    ∀ r ∈ embedScoreItems embeddings query items, -1 ≤ r.score ∧ r.score ≤ 1 := by
  intro r hr
  unfold embedScoreItems at hr
  rw [mem_sortDescBy] at hr
  obtain ⟨i, item, _, rfl⟩ := mem_mapWithIndex _ _ _ _ hr
  exact embedItemScore_bounds embeddings query i item

theorem lexicalRank_sorted (query : String) (items : List Item) :
    (lexicalRank query items).Sorted (fun a b : RankedItem => b.score ≤ a.score) := by
  unfold lexicalRank
  dsimp only []
  split
  · exact List.pairwise_map.mpr (pairwise_of_const (fun _ _ => le_refl (0 : ℝ)) items)
  · exact sortDescBy_sorted _ _

theorem lexicalRank_bounds (query : String) (items : List Item) :
    ∀ r ∈ lexicalRank query items, 0 ≤ r.score ∧ r.score ≤ 1 := by
  intro r hr
  unfold lexicalRank at hr
  dsimp only [] at hr
  split at hr
  · obtain ⟨a, _, rfl⟩ := List.mem_map.mp hr
    exact ⟨le_refl 0, by norm_num⟩
  · rw [mem_sortDescBy] at hr
    obtain ⟨a, _, rfl⟩ := List.mem_map.mp hr
    refine ⟨le_min ?_ (by norm_num), min_le_right _ _⟩
    exact div_nonneg (lexMatchScore_nonneg _ a) (Nat.cast_nonneg _)

theorem lexicalRank_nil (query : String) : lexicalRank query [] = [] := by
  unfold lexicalRank
  dsimp only []
  split <;> rfl

theorem searchItems_sorted (emb : Option (List (List ℝ))) (query : String)
    (items : List Item) :
    (searchItems emb query items).Sorted (fun a b : RankedItem => b.score ≤ a.score) := by
  unfold searchItems
  split
  · exact List.sorted_nil
  · rcases emb with _ | embeddings
    · exact lexicalRank_sorted query items
    · dsimp only []
      split
      · split
        · exact lexicalRank_sorted query items
        · exact embedScoreItems_sorted embeddings query items
      · exact lexicalRank_sorted query items

theorem searchItems_bounds (emb : Option (List (List ℝ))) (query : String)
    (items : List Item) :
    ∀ r ∈ searchItems emb query items, -1 ≤ r.score ∧ r.score ≤ 1 := by
  intro r hr
  unfold searchItems at hr
  split at hr
  · cases hr
  · have lex : r ∈ lexicalRank query items → -1 ≤ r.score ∧ r.score ≤ 1 := by
      intro h
      obtain ⟨h0, h1⟩ := lexicalRank_bounds query items r h
      exact ⟨by linarith, h1⟩
    rcases emb with _ | embeddings
    · exact lex hr
    · dsimp only [] at hr
      split at hr
      · split at hr
        · exact lex hr
        · exact embedScoreItems_bounds embeddings query items r hr
      · exact lex hr

theorem searchInText_ok_shape (emb : Option (List (List ℝ))) (query text : String)
    (opts : SearchInTextOptions) (res : List TextChunk)
    (h : searchInText emb query text opts = Except.ok res) :
    res.Sorted (fun a b : TextChunk => b.score ≤ a.score) ∧
    ∀ c ∈ res, -1 ≤ c.score ∧ c.score ≤ 1 := by
  unfold searchInText at h
  dsimp only [] at h
  split at h
  · rw [Except.ok.injEq] at h
    subst h
    exact ⟨List.sorted_nil, fun c hc => absurd hc (List.not_mem_nil c)⟩
  · rcases emb with _ | embeddings <;> dsimp only [] at h
    · simp at h
    · split_ifs at h
      case _ =>
        rw [Except.ok.injEq] at h
        subst h
        constructor
        · exact (sortDescBy_sorted TextChunk.score _).sublist
            (List.take_sublist opts.maxResults _)
        · intro c hc
          have hc1 := List.mem_of_mem_take hc
          rw [mem_sortDescBy] at hc1
          have hc2 := (List.mem_filter.mp hc1).1
          obtain ⟨i, a, _, rfl⟩ := mem_mapWithIndex _ _ _ _ hc2
          exact scoreChunk_bounds embeddings i a

/-! ## Claim theorems -/

/-- C1: the highlight projector does not satisfy the claimed round-trip law on
the code as written: for the text `"Hello world. How are you?"` with its two
sentence chunks (the very chunks `chunkBySentences` produces, scored 1), the
concatenation of the emitted segment texts is `"Hello world.How are you?"` —
the space at offset 12, which the chunker trimmed from the second chunk's
`text` field, is dropped — which differs from the original text.  The
projector emits `chunk.text` instead of the untrimmed slice
`text[cursor:endOffset]`. -/
theorem c1_roundtrip_violation :
    String.join ((computeHighlightedSegments "Hello world. How are you?"
        ((chunkBySentences "Hello world. How are you?").map
          (fun c => TextChunk.mk c.text c.startOffset c.endOffset 1))).map
        HighlightedSegment.text) = "Hello world.How are you?" ∧
    "Hello world.How are you?" ≠ "Hello world. How are you?" :=
  ⟨by decide, by decide⟩

/-- C5 (counterexample): the second chunk of
`chunkBySentences "Hello world. How are you?"` does not have
`startOffset = 13` as the claim states; the function's output differs from
the claimed pair of chunks. -/
theorem c5_counterexample :
    chunkBySentences "Hello world. How are you?" ≠
      [Chunk.mk "Hello world." 0 12, Chunk.mk "How are you?" 13 25] := by
  decide

/-- C5 (amended): `chunkBySentences "Hello world. How are you?"` returns
exactly two chunks, `{text := "Hello world.", startOffset := 0,
endOffset := 12}` and `{text := "How are you?", startOffset := 12,
endOffset := 25}`: the second chunk's `startOffset` is the regex match start
12 (the position of the space that `trim` removed from its text), not 13. -/
theorem c5_chunk_by_sentences :
    chunkBySentences "Hello world. How are you?" =
      [Chunk.mk "Hello world." 0 12, Chunk.mk "How are you?" 12 25] := by
  decide

/-- C6 (counterexample): with no embedding collaborator configured,
`searchInText` on the empty text returns `ok []` silently instead of failing:
the empty-chunk early return precedes the provider check. -/
theorem c6_counterexample :
    searchInText none "hello" "" {} = Except.ok [] := rfl

/-- C6 (amended): when the text yields at least one chunk, `searchInText`
with no embedding collaborator fails with the `EmbeddingUnavailable` error
(`"Embedding provider not initialized for text search"`), with no lexical
fallback; but when the chunker yields zero chunks (for example on the empty
text) it returns the empty result without error, regardless of the
collaborator. -/
theorem c6_embedding_unavailable (emb : Option (List (List ℝ)))
    (query text : String) (opts : SearchInTextOptions) :
    ((chunksFor opts.chunkStrategy text).length ≠ 0 →
      searchInText none query text opts =
        Except.error "Embedding provider not initialized for text search") ∧
    ((chunksFor opts.chunkStrategy text).length = 0 →
      searchInText emb query text opts = Except.ok []) := by
  constructor
  · intro h
    unfold searchInText
    dsimp only []
    rw [if_neg h]
  · intro h
    unfold searchInText
    dsimp only []
    rw [if_pos h]

/-- Witness for C6: on the text `"Hi."` (one chunk) the missing collaborator
is a reported error; on the empty text (zero chunks) the result is `ok []`
even with a collaborator present. -/
theorem c6_witness :
    searchInText none "hello" "Hi." {} =
      Except.error "Embedding provider not initialized for text search" ∧
    searchInText (some [[1], [1]]) "hello" "" {} = Except.ok [] :=
  ⟨(c6_embedding_unavailable none "hello" "Hi." {}).1 (by decide),
   (c6_embedding_unavailable (some [[1], [1]]) "hello" "" {}).2 (by decide)⟩

/-- C10: in `useSelect`, whenever the dropdown is open and the query is the
empty string, the exposed options are exactly the input items in their
original order, each with score 1, regardless of the committed results. -/
theorem c10_empty_query_options (query : String) (isOpen : Bool)
    (items : List Item) (results : List RankedItem)
    (hq : query.length = 0) (ho : isOpen = true) :
    displayOptions query isOpen items results =
      items.map (fun item => RankedItem.mk item 1) := by
  unfold displayOptions
  rw [if_pos ⟨hq, ho⟩]

/-- Witness for C10 at a concrete open dropdown with stale committed
results. -/
theorem c10_witness :
    displayOptions "" true [catItem, dogItem] [RankedItem.mk zzItem 0] =
      [RankedItem.mk catItem 1, RankedItem.mk dogItem 1] :=
  c10_empty_query_options "" true [catItem, dogItem] [RankedItem.mk zzItem 0] rfl rfl

/-- C9: `cosineSimilarity` returns 0 (not an error) when either vector is
empty, the lengths differ, or either squared norm is zero; otherwise it
returns the dot product divided by the product of the Euclidean norms — the
standard cosine of the angle — and that value lies in `[-1, 1]`. -/
theorem c9_cosine_similarity (a b : List ℝ) :
    ((a.length = 0 ∨ b.length = 0 ∨ a.length ≠ b.length ∨
        loopSum a.length a a = 0 ∨ loopSum a.length b b = 0) →
      cosineSimilarity a b = 0) ∧
    (a.length ≠ 0 → b.length ≠ 0 → a.length = b.length →
      loopSum a.length a a ≠ 0 → loopSum a.length b b ≠ 0 →
      cosineSimilarity a b = loopSum a.length a b /
        (Real.sqrt (loopSum a.length a a) * Real.sqrt (loopSum a.length b b)) ∧
      -1 ≤ cosineSimilarity a b ∧ cosineSimilarity a b ≤ 1) := by
  constructor
  · intro hd
    unfold cosineSimilarity
    rcases hd with h | h | h | h | h
    · rw [if_pos (Or.inl h)]
    · rw [if_pos (Or.inr (Or.inl h))]
    · rw [if_pos (Or.inr (Or.inr h))]
    · by_cases hg : a.length = 0 ∨ b.length = 0 ∨ a.length ≠ b.length
      · rw [if_pos hg]
      · rw [if_neg hg, if_pos (by rw [h, Real.sqrt_zero, zero_mul])]
    · by_cases hg : a.length = 0 ∨ b.length = 0 ∨ a.length ≠ b.length
      · rw [if_pos hg]
      · rw [if_neg hg, if_pos (by rw [h, Real.sqrt_zero, mul_zero])]
  · intro h1 h2 h3 h4 h5
    have heq : cosineSimilarity a b = loopSum a.length a b /
        (Real.sqrt (loopSum a.length a a) * Real.sqrt (loopSum a.length b b)) := by
      unfold cosineSimilarity
      have hg : ¬(a.length = 0 ∨ b.length = 0 ∨ a.length ≠ b.length) := by
        push_neg
        exact ⟨h1, h2, h3⟩
      have hA : 0 < loopSum a.length a a :=
        lt_of_le_of_ne (loopSum_self_nonneg _ _) (Ne.symm h4)
      have hB : 0 < loopSum a.length b b :=
        lt_of_le_of_ne (loopSum_self_nonneg _ _) (Ne.symm h5)
      have hden : Real.sqrt (loopSum a.length a a) * Real.sqrt (loopSum a.length b b) ≠ 0 :=
        ne_of_gt (mul_pos (Real.sqrt_pos.mpr hA) (Real.sqrt_pos.mpr hB))
      rw [if_neg hg, if_neg hden]
    exact ⟨heq, (cosineSimilarity_bounds a b).1, (cosineSimilarity_bounds a b).2⟩

/-- Witness for C9 at the orthogonal pair `[1, 0]`, `[0, 1]`: the value is
the true cosine and lies in `[-1, 1]`. -/
theorem c9_witness :
    cosineSimilarity [(1 : ℝ), 0] [(0 : ℝ), 1] =
      loopSum 2 [(1 : ℝ), 0] [(0 : ℝ), 1] /
        (Real.sqrt (loopSum 2 [(1 : ℝ), 0] [(1 : ℝ), 0]) *
          Real.sqrt (loopSum 2 [(0 : ℝ), 1] [(0 : ℝ), 1])) ∧
    -1 ≤ cosineSimilarity [(1 : ℝ), 0] [(0 : ℝ), 1] ∧
    cosineSimilarity [(1 : ℝ), 0] [(0 : ℝ), 1] ≤ 1 :=
  (c9_cosine_similarity [(1 : ℝ), 0] [(0 : ℝ), 1]).2 (by norm_num) (by norm_num) rfl
    (by norm_num [loopSum, Finset.sum_range_succ])
    (by norm_num [loopSum, Finset.sum_range_succ])

/-- C2 (counterexample): the claimed lower bound `0 ≤ score` fails on the
embedding path of `searchItems`: with a valid embedding response whose item
vector points opposite to the query vector and no lexical overlap, the fused
score is `min(-1 + 0, 1) = -1 < 0`. -/
theorem c2_counterexample :
    ¬ ∀ r ∈ searchItems (some [[(1 : ℝ)], [(-1 : ℝ)]]) "qq" [zzItem],
        0 ≤ r.score ∧ r.score ≤ 1 := by
  intro h
  have hcos : cosineSimilarity [(1 : ℝ)] [(-1 : ℝ)] = -1 := by
    norm_num [cosineSimilarity, loopSum, Finset.sum_range_succ, Real.sqrt_one]
  have hboost : keywordBoost "qq" zzItem = 0 := rfl
  have he : searchItems (some [[(1 : ℝ)], [(-1 : ℝ)]]) "qq" [zzItem] =
      [RankedItem.mk zzItem
        (min (cosineSimilarity [(1 : ℝ)] [(-1 : ℝ)] + keywordBoost "qq" zzItem) 1)] := rfl
  have he2 : searchItems (some [[(1 : ℝ)], [(-1 : ℝ)]]) "qq" [zzItem] =
      [RankedItem.mk zzItem (-1)] := by
    rw [he, hcos, hboost]
    norm_num
  have hb := (h (RankedItem.mk zzItem (-1))
    (by rw [he2]; exact List.mem_singleton_self _)).1
  norm_num at hb

/-- C2 (amended): the results of `searchItems` and `searchInText` are sorted
in descending order of score and every returned score is at most 1 and at
least -1; when no embedding collaborator is configured (the lexical fallback
path of `searchItems`), scores additionally lie in `[0, 1]`.  On the
embedding path a score can be negative, because cosine similarity ranges
over `[-1, 1]` and no lower clamp is applied. -/
theorem c2_sorted_and_bounded :
    (∀ (emb : Option (List (List ℝ))) (query : String) (items : List Item),
      (searchItems emb query items).Sorted
        (fun a b : RankedItem => b.score ≤ a.score)) ∧
    (∀ (emb : Option (List (List ℝ))) (query : String) (items : List Item),
      ∀ r ∈ searchItems emb query items, -1 ≤ r.score ∧ r.score ≤ 1) ∧
    (∀ (query : String) (items : List Item),
      ∀ r ∈ searchItems none query items, 0 ≤ r.score ∧ r.score ≤ 1) ∧
    (∀ (emb : Option (List (List ℝ))) (query text : String)
      (opts : SearchInTextOptions) (res : List TextChunk),
      searchInText emb query text opts = Except.ok res →
      res.Sorted (fun a b : TextChunk => b.score ≤ a.score) ∧
      ∀ c ∈ res, -1 ≤ c.score ∧ c.score ≤ 1) := by
  refine ⟨searchItems_sorted, searchItems_bounds, ?_, searchInText_ok_shape⟩
  intro query items r hr
  unfold searchItems at hr
  split at hr
  · cases hr
  · exact lexicalRank_bounds query items r hr

/-- Witness for C2: the empty-text search resolves to `ok []`, which is
sorted and trivially bounded. -/
theorem c2_witness :
    ([] : List TextChunk).Sorted (fun a b : TextChunk => b.score ≤ a.score) ∧
    ∀ c ∈ ([] : List TextChunk), -1 ≤ c.score ∧ c.score ≤ 1 :=
  c2_sorted_and_bounded.2.2.2 none "hello" "" {} [] rfl

/-- C7 (counterexample): `searchItems` does not surface an invalid embedding
response: with one item and an embedding response of length 1 (instead of
the required 2), the thrown error is caught and the call silently falls back
to the lexical ranking — it returns the same ranked list as the no-provider
call, namely `[⟨Cat, 1⟩]`, not a failure. -/
theorem c7_counterexample :
    searchItems (some [[(1 : ℝ)]]) "cat" [catItem] =
      searchItems none "cat" [catItem] ∧
    searchItems (some [[(1 : ℝ)]]) "cat" [catItem] = [RankedItem.mk catItem 1] := by
  refine ⟨rfl, ?_⟩
  have h1 : lexMatchScore ["cat"] catItem = 0 + 1 := rfl
  show sortDescBy RankedItem.score
    [RankedItem.mk catItem (min (lexMatchScore ["cat"] catItem / ((1 : ℕ) : ℝ)) 1)] = _
  rw [h1]
  norm_num [sortDescBy, List.insertionSort, List.orderedInsert]

/-- C7 (amended): `searchInText` surfaces `InvalidEmbeddingResponse` as a
failure — `"Invalid embeddings response"` when the returned vector count
differs from `chunks.length + 1`, `"Empty query embedding"` when the query
vector is empty — but `searchItems` catches those same embedding-path
failures and silently recovers with the lexical fallback ranking instead of
propagating them. -/
theorem c7_invalid_embedding_response :
    (∀ (embeddings : List (List ℝ)) (query text : String)
      (opts : SearchInTextOptions),
      (chunksFor opts.chunkStrategy text).length ≠ 0 →
      embeddings.length ≠ (chunksFor opts.chunkStrategy text).length + 1 →
      searchInText (some embeddings) query text opts =
        Except.error "Invalid embeddings response") ∧
    (∀ (embeddings : List (List ℝ)) (query text : String)
      (opts : SearchInTextOptions),
      (chunksFor opts.chunkStrategy text).length ≠ 0 →
      embeddings.length = (chunksFor opts.chunkStrategy text).length + 1 →
      (embeddings.headD []).length = 0 →
      searchInText (some embeddings) query text opts =
        Except.error "Empty query embedding") ∧
    (∀ (embeddings : List (List ℝ)) (query : String) (items : List Item),
      embeddings.length ≠ items.length + 1 →
      searchItems (some embeddings) query items = lexicalRank query items) ∧
    (∀ (embeddings : List (List ℝ)) (query : String) (items : List Item),
      (embeddings.headD []).length = 0 →
      searchItems (some embeddings) query items = lexicalRank query items) := by
  refine ⟨?_, ?_, ?_, ?_⟩
  · intro embeddings query text opts hc hlen
    unfold searchInText
    dsimp only []
    rw [if_neg hc, if_neg hlen]
  · intro embeddings query text opts hc hlen hqe
    unfold searchInText
    dsimp only []
    rw [if_neg hc, if_pos hlen, if_pos hqe]
  · intro embeddings query items hlen
    unfold searchItems
    split
    next hz =>
      rw [List.length_eq_zero.mp hz, lexicalRank_nil]
    next hz =>
      dsimp only []
      rw [if_neg hlen]
  · intro embeddings query items hqe
    unfold searchItems
    split
    next hz =>
      rw [List.length_eq_zero.mp hz, lexicalRank_nil]
    next hz =>
      dsimp only []
      by_cases hlen : embeddings.length = items.length + 1
      · rw [if_pos hlen, if_pos hqe]
      · rw [if_neg hlen]

/-- Witness for C7: a one-chunk text with an empty embedding response makes
`searchInText` fail, while `searchItems` with the same malformed response
returns the lexical fallback ranking. -/
theorem c7_witness :
    searchInText (some []) "q" "Hi." {} = Except.error "Invalid embeddings response" ∧
    searchItems (some []) "q" [catItem] = lexicalRank "q" [catItem] :=
  ⟨c7_invalid_embedding_response.1 [] "q" "Hi." {} (by decide) (by decide),
   c7_invalid_embedding_response.2.2.1 [] "q" [catItem] (by decide)⟩

theorem lexTokenScore_eq_spec (item : Item) (t : String) :
    lexTokenScore (jsLower (itemTextLex item))
      (dedupFirst (tokenize (jsLower (itemTextLex item)))) t =
      specLexTokenScore item t := by
  unfold lexTokenScore specLexTokenScore
  by_cases hm : t ∈ dedupFirst (tokenize (jsLower (itemTextLex item)))
  · rw [if_pos (by simpa using hm), if_pos hm]
  · rw [if_neg (by simpa using hm), if_neg hm]
    by_cases hs : jsIncludes (jsLower (itemTextLex item)) t = true
    · rw [if_pos hs, if_pos hs]
    · rw [if_neg hs, if_neg hs]
      by_cases hp : ∃ w ∈ dedupFirst (tokenize (jsLower (itemTextLex item))),
          jsStarts w t = true ∨ jsStarts t w = true
      · rw [if_pos (by simpa using hp), if_pos hp]
      · rw [if_neg (by simpa using hp), if_neg hp]

theorem foldl_add_eq_sum {α : Type} (g : α → ℝ) :
    ∀ (l : List α) (acc : ℝ), l.foldl (fun a q => a + g q) acc = acc + (l.map g).sum
  | [], acc => by simp
  | q :: l, acc => by
    simp only [List.foldl_cons, List.map_cons, List.sum_cons]
    rw [foldl_add_eq_sum g l (acc + g q)]
    ring

theorem lexScore_eq_spec (query : String) (item : Item) :
    min (lexMatchScore (dedupFirst (tokenize query)) item /
      ((dedupFirst (tokenize query)).length : ℝ)) 1 = specLexScore query item := by
  have hms : lexMatchScore (dedupFirst (tokenize query)) item =
      ((dedupFirst (tokenize query)).map (specLexTokenScore item)).sum := by
    unfold lexMatchScore
    dsimp only []
    rw [foldl_add_eq_sum, zero_add]
    exact congrArg List.sum (List.map_congr_left fun t _ => lexTokenScore_eq_spec item t)
  unfold specLexScore
  rw [← hms, max_eq_right]
  exact le_min (div_nonneg (lexMatchScore_nonneg _ _) (Nat.cast_nonneg _)) zero_le_one

theorem lexicalRank_eq_spec (query : String) (items : List Item) :
    lexicalRank query items = specLexicalRank query items := by
  unfold lexicalRank specLexicalRank
  dsimp only []
  split
  next hq =>
    have hnil : dedupFirst (tokenize query) = [] := List.length_eq_zero.mp hq
    have hscore : ∀ item : Item, specLexScore query item = 0 := by
      intro item
      unfold specLexScore
      rw [hnil]
      norm_num
    have hmap : (items.map fun item => RankedItem.mk item (specLexScore query item)) =
        items.map fun item => RankedItem.mk item 0 :=
      List.map_congr_left fun a _ => by rw [hscore a]
    rw [hmap]
    exact (@sortDescBy_of_sorted RankedItem RankedItem.score
      (items.map fun item => RankedItem.mk item 0)
      (List.pairwise_map.mpr
        (pairwise_of_const (fun _ _ => le_refl (0 : ℝ)) items))).symm
  next hq =>
    congr 1
    exact List.map_congr_left fun item _ => by rw [← lexScore_eq_spec query item]

/-- C8: the lexical fallback ranking of `searchItems` computes exactly the
score the claim describes — for each unique lowercase query token, 1.0 for
token-set membership, else 0.7 for a substring of the combined text, else
0.5 when some item token is in a prefix relation with the query token; the
sum is divided by the number of unique query tokens and clamped to `[0, 1]` —
sorted descending.  In particular, query `"cat"` against
`[{label := "Cat"}, {label := "Dog"}]` with no embedding backend yields `Cat`
score 1.0 and `Dog` score 0.0, in that order. -/
theorem c8_lexical_fallback :
    (∀ (query : String) (items : List Item),
      searchItems none query items = specLexicalRank query items) ∧
    searchItems none "cat" [catItem, dogItem] =
      [RankedItem.mk catItem 1, RankedItem.mk dogItem 0] := by
  constructor
  · intro query items
    unfold searchItems
    split
    next hz =>
      rw [List.length_eq_zero.mp hz]
      rfl
    next hz =>
      exact lexicalRank_eq_spec query items
  · have h1 : lexMatchScore ["cat"] catItem = 0 + 1 := rfl
    have h2 : lexMatchScore ["cat"] dogItem = 0 + 0 := rfl
    show sortDescBy RankedItem.score
      [RankedItem.mk catItem (min (lexMatchScore ["cat"] catItem / ((1 : ℕ) : ℝ)) 1),
       RankedItem.mk dogItem (min (lexMatchScore ["cat"] dogItem / ((1 : ℕ) : ℝ)) 1)] = _
    rw [h1, h2]
    norm_num [sortDescBy, List.insertionSort, List.orderedInsert]

/-- C3: a superseded search never commits.  In both controller variants, when
a request settles whose abort-controller id is no longer the current one, the
committed `results` are left untouched and the stale promise resolves with
`[]` — for resolution and for rejection alike.  The scenario parts replay the
claim: search "ab" is issued (id 0), search "cd" supersedes it (id 1) and
commits `R2`; however the superseded search then settles, `results` is still
`R2`. -/
theorem c3_superseded_never_commits :
    (∀ (s : SearchCState) (id : Nat) (o : SettleOutcome (List TextChunk)),
      s.active ≠ some id →
      (searchSettle s id o).1.results = s.results ∧ (searchSettle s id o).2 = []) ∧
    (∀ (minScore : ℝ) (maxResults : Nat) (s : SelectCState) (id : Nat)
      (o : SettleOutcome (List RankedItem)),
      s.active ≠ some id →
      (selectSettle minScore maxResults s id o).1.results = s.results ∧
      (selectSettle minScore maxResults s id o).2 = []) ∧
    (∀ (R2 : List TextChunk) (o : SettleOutcome (List TextChunk)),
      (searchSettle
        (searchSettle
          (searchCall true 2 (searchCall true 2 initSearchC "ab" "T").1 "cd" "T").1
          1 (.ok R2)).1
        0 o).1.results = R2) ∧
    (∀ (R2 : List RankedItem) (o : SettleOutcome (List RankedItem)),
      (selectSettle 0 0
        (selectSettle 0 0
          (selectCall true 1 (selectCall true 1 initSelectC "ab").1 "cd").1
          1 (.ok R2)).1
        0 o).1.results = R2) := by
  refine ⟨?_, ?_, ?_, ?_⟩
  · intro s id o hne
    cases o <;> simp [searchSettle, hne]
  · intro minScore maxResults s id o hne
    cases o <;> simp [selectSettle, hne]
  · intro R2 o
    cases o <;> rfl
  · intro R2 o
    have h0 : ¬ ((0 : ℝ) < 0) := lt_irrefl 0
    have e1 : (selectCall true 1 initSelectC "ab").1 =
        SelectCState.mk [] none true "ab" (some 0) 1 := rfl
    have e2 : (selectCall true 1 (SelectCState.mk [] none true "ab" (some 0) 1) "cd").1 =
        SelectCState.mk [] none true "cd" (some 1) 2 := rfl
    have e3 : (selectSettle 0 0 (SelectCState.mk [] none true "cd" (some 1) 2) 1
        (.ok R2)).1 = SelectCState.mk R2 none false "cd" (some 1) 2 := by
      simp [selectSettle, h0]
    rw [e1, e2, e3]
    cases o <;> simp [selectSettle]

/-- Witness for C3: a settle for stale id 5 while id 7 is current does not
change the committed results and resolves with `[]`. -/
theorem c3_witness :
    ((some 7 : Option Nat) ≠ some 5) ∧
    (searchSettle (SearchCState.mk [TextChunk.mk "Hi." 0 3 1] none true "q" "T" (some 7) 8)
      5 (.ok [])).1.results = [TextChunk.mk "Hi." 0 3 1] ∧
    (searchSettle (SearchCState.mk [TextChunk.mk "Hi." 0 3 1] none true "q" "T" (some 7) 8)
      5 (.ok [])).2 = [] :=
  ⟨by decide,
   (c3_superseded_never_commits.1
     (SearchCState.mk [TextChunk.mk "Hi." 0 3 1] none true "q" "T" (some 7) 8)
     5 (.ok []) (by decide)).1,
   (c3_superseded_never_commits.1
     (SearchCState.mk [TextChunk.mk "Hi." 0 3 1] none true "q" "T" (some 7) 8)
     5 (.ok []) (by decide)).2⟩

/-- C4 (counterexample): in the item-selection controller, the second of two
identical calls does not return the cached result of the first completed
search: after a search for "ab" commits `[⟨Cat, 1⟩]`, calling again with
"ab" returns `.immediate []`, which differs from the cached result. -/
theorem c4_counterexample :
    (selectSettle 0 0 (selectCall true 1 initSelectC "ab").1 0
        (.ok [RankedItem.mk catItem 1])).2 = [RankedItem.mk catItem 1] ∧
    (selectCall true 1 (selectSettle 0 0 (selectCall true 1 initSelectC "ab").1 0
        (.ok [RankedItem.mk catItem 1])).1 "ab").2 =
      .immediate ([] : List RankedItem) ∧
    ([] : List RankedItem) ≠ [RankedItem.mk catItem 1] := by
  have h0 : ¬ ((0 : ℝ) < 0) := lt_irrefl 0
  have e1 : (selectCall true 1 initSelectC "ab").1 =
      SelectCState.mk [] none true "ab" (some 0) 1 := rfl
  have e3 : (selectSettle 0 0 (SelectCState.mk [] none true "ab" (some 0) 1) 0
      (.ok [RankedItem.mk catItem 1])).1 =
      SelectCState.mk [RankedItem.mk catItem 1] none false "ab" (some 0) 1 := by
    simp [selectSettle, h0]
  refine ⟨?_, ?_, by simp⟩
  · rw [e1]
    simp [selectSettle, h0]
  · rw [e1, e3]
    rfl

/-- C4 (amended): with an unchanged query (and unchanged source text for the
text-search variant), the second `search` call short-circuits on the
duplicate-query guard and issues no client call, so the embedding call runs
at most once; the text-search controller's second call returns the currently
committed `results` (the first search's results once it completed), while the
item-selection controller's second call returns the empty list, not the
cached result.  The scenario parts replay issue → settle → identical call
for both variants. -/
theorem c4_dedupe :
    (∀ (minQueryLength : Nat) (s : SearchCState) (q text : String),
      ¬ q.length < minQueryLength → q = s.lastQuery → text = s.lastText →
      searchCall true minQueryLength s q text = (s, .immediate s.results)) ∧
    (∀ (minQueryLength : Nat) (s : SelectCState) (q : String),
      ¬ q.length < minQueryLength → q = s.lastQuery →
      selectCall true minQueryLength s q = (s, .immediate [])) ∧
    (∀ R : List TextChunk,
      (searchCall true 2 initSearchC "ab" "T").2 = .issued 0 ∧
      searchCall true 2
          (searchSettle (searchCall true 2 initSearchC "ab" "T").1 0 (.ok R)).1 "ab" "T" =
        ((searchSettle (searchCall true 2 initSearchC "ab" "T").1 0 (.ok R)).1,
          .immediate R)) ∧
    (∀ R : List RankedItem,
      (selectCall true 1 initSelectC "ab").2 = .issued 0 ∧
      selectCall true 1
          (selectSettle 0 0 (selectCall true 1 initSelectC "ab").1 0 (.ok R)).1 "ab" =
        ((selectSettle 0 0 (selectCall true 1 initSelectC "ab").1 0 (.ok R)).1,
          .immediate [])) := by
  refine ⟨?_, ?_, ?_, ?_⟩
  · intro minQueryLength s q text hlen hq ht
    unfold searchCall
    rw [if_neg (by simp), if_neg hlen, if_pos ⟨hq, ht⟩]
  · intro minQueryLength s q hlen hq
    unfold selectCall
    rw [if_neg (by simp), if_neg hlen, if_pos hq]
  · intro R
    exact ⟨rfl, rfl⟩
  · intro R
    have h0 : ¬ ((0 : ℝ) < 0) := lt_irrefl 0
    have e1 : (selectCall true 1 initSelectC "ab") =
        (SelectCState.mk [] none true "ab" (some 0) 1, .issued 0) := rfl
    have e3 : (selectSettle 0 0 (SelectCState.mk [] none true "ab" (some 0) 1) 0
        (.ok R)).1 = SelectCState.mk R none false "ab" (some 0) 1 := by
      simp [selectSettle, h0]
    constructor
    · rw [e1]
    · rw [e1]
      dsimp only []
      rw [e3]
      rfl

/-- Witness for C4: a duplicate call on the item-selection controller at a
concrete deduped state returns `.immediate []` and leaves the state alone. -/
theorem c4_witness :
    ¬ ("ab".length < 1) ∧
    selectCall true 1 (SelectCState.mk [] none false "ab" none 0) "ab" =
      (SelectCState.mk [] none false "ab" none 0, .immediate []) :=
  ⟨by decide,
   c4_dedupe.2.1 1 (SelectCState.mk [] none false "ab" none 0) "ab" (by decide) rfl⟩

end Intentions
